import Mathlib

/-!
Verification of the client pagination cache (`useDashboard` hook) and the
authenticated API helpers of the dashboard frontend
(src/frontend/src/hooks/useDashboard.ts and src/frontend/src/lib/api.ts).

The hook is embedded shallowly: each async operation becomes a pure function
from the pre-state and the resolved network result to the post-state, paired
with the list of network requests it issues.  JavaScript numbers used as
limits, offsets and ids are modelled as `Int`; a thrown JavaScript value is
either an `Error` carrying a message or some other value.
-/

namespace Dashboard

/-- Activity record, from the `Activity` interface in src/frontend/src/lib/api.ts.
The `extra_data` JSON object is modelled as a key-value list. -/
structure Activity where
  id : Int
  user_id : Int
  action_type : String
  description : Option String
  extra_data : Option (List (String × String))
  created_at : String
deriving DecidableEq

/-- Payload of a create request, from `ActivityCreateData` in api.ts. -/
structure ActivityCreateData where
  action_type : String
  description : Option String
  extra_data : Option (List (String × String))
deriving DecidableEq

/-- Stats summary, from `ActivityStats` in api.ts; the JSON records are
modelled as key-value lists. -/
structure ActivityStats where
  total_count : Int
  by_type : List (String × Int)
  by_date : List (String × Int)
  most_common_action : Option String
deriving DecidableEq

/-- A thrown JavaScript value: an `Error` instance with its message, or any
other value (the hook's catch blocks test `err instanceof Error`). -/
inductive JsError where
  | error (message : String)
  | other
deriving DecidableEq

/-- `ActivitiesState` of the hook: accumulated list, loading flag, error. -/
structure ActivitiesState where
  data : List Activity
  loading : Bool
  error : Option String
deriving DecidableEq

/-- `StatsState` of the hook. -/
structure StatsState where
  data : Option ActivityStats
  loading : Bool
  error : Option String
deriving DecidableEq

/-- `PaginationState` of the hook: limit, offset, hasMore. -/
structure PaginationState where
  limit : Int
  offset : Int
  hasMore : Bool
deriving DecidableEq

/-- The three `useState` containers of `useDashboard` combined. -/
structure DashboardState where
  activities : ActivitiesState
  stats : StatsState
  pagination : PaginationState
deriving DecidableEq

/-- `DEFAULT_LIMIT` in useDashboard.ts. -/
def DEFAULT_LIMIT : Int := 10

/-- A network request issued by the hook (the call made, before its result
arrives). -/
inductive Request where
  | fetchActivitiesReq (limit offset : Int)
  | fetchStatsReq
  | createReq (data : ActivityCreateData)
  | deleteReq (id : Int)
deriving DecidableEq

/-- Error message computed in `fetchActivities`'s catch block. -/
def fetchErrorMessage : JsError → String
  | .error m => m
  | .other => "Failed to fetch activities. Please try again."

/-- Error message computed in `fetchStats`'s catch block. -/
def statsErrorMessage : JsError → String
  | .error m => m
  | .other => "Failed to fetch statistics. Please try again."

/-- Error message computed in `createActivity`'s catch block. -/
def createErrorMessage : JsError → String
  | .error m => m
  | .other => "Failed to create activity. Please try again."

/-- Error message computed in `deleteActivity`'s catch block. -/
def deleteErrorMessage : JsError → String
  | .error m => m
  | .other => "Failed to delete activity. Please try again."

/-- `fetchActivities(limit = DEFAULT_LIMIT, offset = 0)` of useDashboard.ts.
Omitted JavaScript arguments are `none`; the function applies its own
defaults.  `result` is what the awaited `getActivities(limit, offset)` call
resolved or rejected with.  Returns the post-state and the requests issued. -/
def fetchActivities (limit? offset? : Option Int)
    (result : Except JsError (List Activity)) (s : DashboardState) :
    DashboardState × List Request :=
  let limit := limit?.getD DEFAULT_LIMIT
  let offset := offset?.getD 0
  let s1 : DashboardState :=
    { s with activities := { s.activities with loading := true, error := none } }
  match result with
  | .ok data =>
      ({ s1 with
          activities :=
            { data := if offset = 0 then data else s1.activities.data ++ data,
              loading := false,
              error := none },
          pagination :=
            { limit := limit,
              offset := offset,
              hasMore := decide ((data.length : Int) = limit) } },
        [.fetchActivitiesReq limit offset])
  | .error err =>
      ({ s1 with
          activities :=
            { s1.activities with
                loading := false,
                error := some (fetchErrorMessage err) } },
        [.fetchActivitiesReq limit offset])

/-- `fetchStats(startDate?, endDate?)` of useDashboard.ts, with `result` the
outcome of the awaited `getActivityStats` call. -/
def fetchStats (result : Except JsError ActivityStats) (s : DashboardState) :
    DashboardState × List Request :=
  let s1 : DashboardState :=
    { s with stats := { s.stats with loading := true, error := none } }
  match result with
  | .ok data =>
      ({ s1 with stats := { data := some data, loading := false, error := none } },
        [.fetchStatsReq])
  | .error err =>
      ({ s1 with
          stats := { s1.stats with loading := false, error := some (statsErrorMessage err) } },
        [.fetchStatsReq])

/-- `createActivity(data)` of useDashboard.ts: on success, prepends the new
record and fires `fetchStats()` (recorded as an issued request); on failure,
sets the error message.  The third component is the promise's resolution
value (`some a` for the created record, `none` for null). -/
def createActivity (d : ActivityCreateData) (result : Except JsError Activity)
    (s : DashboardState) : DashboardState × List Request × Option Activity :=
  match result with
  | .ok newActivity =>
      ({ s with activities := { s.activities with data := newActivity :: s.activities.data } },
        [.createReq d, .fetchStatsReq], some newActivity)
  | .error err =>
      ({ s with activities := { s.activities with error := some (createErrorMessage err) } },
        [.createReq d], none)

/-- `deleteActivity(id)` of useDashboard.ts: on success, filters out entries
whose id strictly equals the deleted id and fires `fetchStats()`; on
failure, sets the error message.  The Bool is the promise's resolution
value. -/
def deleteActivity (id : Int) (result : Except JsError Unit)
    (s : DashboardState) : DashboardState × List Request × Bool :=
  match result with
  | .ok _ =>
      ({ s with
          activities :=
            { s.activities with data := s.activities.data.filter (fun a => a.id != id) } },
        [.deleteReq id, .fetchStatsReq], true)
  | .error err =>
      ({ s with activities := { s.activities with error := some (deleteErrorMessage err) } },
        [.deleteReq id], false)

/-- `refreshData()` of useDashboard.ts: resets the pagination offset to 0,
then runs `fetchActivities(pagination.limit, 0)` and `fetchStats()` under
`Promise.all` — both requests are issued together; neither result feeds the
other, and they update disjoint parts of the state. -/
def refreshData (actResult : Except JsError (List Activity))
    (statsResult : Except JsError ActivityStats) (s : DashboardState) :
    DashboardState × List Request :=
  let s1 : DashboardState :=
    { s with pagination := { s.pagination with offset := 0 } }
  let a := fetchActivities (some s.pagination.limit) (some 0) actResult s1
  let b := fetchStats statsResult a.1
  (b.1, a.2 ++ b.2)

/-- `loadMore()` of useDashboard.ts: returns immediately when `hasMore` is
false or an activities fetch is in flight; otherwise delegates to
`fetchActivities(pagination.limit, pagination.offset + pagination.limit)`. -/
def loadMore (result : Except JsError (List Activity)) (s : DashboardState) :
    DashboardState × List Request :=
  if !s.pagination.hasMore || s.activities.loading then (s, [])
  else
    let newOffset := s.pagination.offset + s.pagination.limit
    fetchActivities (some s.pagination.limit) (some newOffset) result s

/-! ### api.ts: request construction and authenticated-response handling -/

/-- `DASHBOARD_API_URL` in api.ts. -/
def DASHBOARD_API_URL : String := "/api/dashboard"

/-- An HTTP request assembled by an api.ts function. -/
structure ApiRequest where
  method : String
  url : String
  query : List (String × String)
  bearerAuth : Bool
deriving DecidableEq

/-- `getActivities(limit = 50, offset = 0)` of api.ts, modelled up to the
request it sends: GET on the activities path with limit/offset query
parameters and a bearer token.  Omitted arguments are `none`. -/
def getActivitiesRequest (limit? offset? : Option Int) : ApiRequest :=
  let limit := limit?.getD 50
  let offset := offset?.getD 0
  { method := "GET",
    url := DASHBOARD_API_URL ++ "/activities",
    query := [("limit", toString limit), ("offset", toString offset)],
    bearerAuth := true }

/-- What `response.json()` on an error body yields: rejection (caught and
replaced by `{detail: 'Unknown error'}`), or a parsed object whose `detail`
field is absent/empty or a string. -/
inductive ErrorBody where
  | parseFailed
  | parsed (detail : Option String)
deriving DecidableEq

/-- A fetch `Response` as consumed by `handleAuthenticatedResponse`:
its status, the error body parse outcome, and the success-path JSON value. -/
structure Response (α : Type) where
  status : Nat
  errorBody : ErrorBody
  value : α

/-- The fetch API's `response.ok`: status in the range 200–299. -/
def responseOk (status : Nat) : Bool := decide (200 ≤ status ∧ status < 300)

/-- Browser side effects performed by the api.ts client code. -/
inductive Effect where
  | removeToken
  | redirect (url : String)
deriving DecidableEq

/-- Successful outcome of `handleAuthenticatedResponse`: the parsed JSON
payload, or `undefined` on a 204 No Content response. -/
inductive HandlerOutcome (α : Type) where
  | value (v : α)
  | noContent

/-- The error message built in the `!response.ok` branch:
`error.detail || 'Request failed with status N'`, where a rejected
`response.json()` was replaced by `{detail: 'Unknown error'}` and an
absent or empty (falsy) `detail` falls back to the status message. -/
def detailMessage (status : Nat) : ErrorBody → String
  | .parseFailed => "Unknown error"
  | .parsed none => "Request failed with status " ++ toString status
  | .parsed (some d) =>
      if d = "" then "Request failed with status " ++ toString status else d

/-- `handleAuthenticatedResponse` of api.ts: on 401, remove the stored token,
redirect to /login and throw a session-expired error; on other non-ok
statuses throw the detail message; return `undefined` on 204, else the
parsed body.  Returns the browser effects performed and the promise
outcome. -/
def handleAuthenticatedResponse {α : Type} (r : Response α) :
    List Effect × Except String (HandlerOutcome α) :=
  if r.status = 401 then
    ([.removeToken, .redirect "/login"],
      .error "Session expired. Please log in again.")
  else if !responseOk r.status then
    ([], .error (detailMessage r.status r.errorBody))
  else if r.status = 204 then
    ([], .ok .noContent)
  else
    ([], .ok (.value r.value))

/-! ### Concrete states and records used by witnesses and counterexamples -/

/-- A concrete activity record used in witnesses and counterexamples. -/
def sampleActivity (n : Int) : Activity :=
  { id := n, user_id := 1, action_type := "login", description := none,
    extra_data := none, created_at := "2024-01-01T00:00:00Z" }

/-- An empty stats sub-state used to build concrete dashboard states. -/
def sampleStats : StatsState := { data := none, loading := false, error := none }

/-- A concrete state with limit 0 and offset 0 in which `loadMore` would run
a fetch whose requested offset is 0 (reachable by calling the exposed
`fetchActivities(0, 0)` and then a successful `createActivity`). -/
def zeroLimitState : DashboardState :=
  { activities := { data := [sampleActivity 1], loading := false, error := none },
    stats := sampleStats,
    pagination := { limit := 0, offset := 0, hasMore := true } }

/-- A concrete state with one page loaded and room for more. -/
def moreState : DashboardState :=
  { activities := { data := [sampleActivity 1], loading := false, error := none },
    stats := sampleStats,
    pagination := { limit := 1, offset := 0, hasMore := true } }

/-- A concrete state in which `hasMore` is false. -/
def noMoreState : DashboardState :=
  { activities := { data := [sampleActivity 1], loading := false, error := none },
    stats := sampleStats,
    pagination := { limit := 10, offset := 0, hasMore := false } }

/-! ### Claims -/

/-- C1: after a successful activities fetch, `hasMore` is true iff the
number of records in the returned page equals the requested limit (the
default limit when the argument was omitted); a shorter page makes it
false. -/
theorem C1_hasMore_iff_full_page (limit? offset? : Option Int)
    (data : List Activity) (s : DashboardState) :
    ((fetchActivities limit? offset? (Except.ok data) s).1).pagination.hasMore = true ↔
      (data.length : Int) = limit?.getD DEFAULT_LIMIT := by
  simp [fetchActivities]

/-- C3: on a successful fetch, a requested offset of 0 replaces the
accumulated list wholesale with the returned page, while a nonzero offset
appends the page after the existing list, keeping prior elements in
order. -/
theorem C3_replace_or_append (limit? offset? : Option Int)
    (data : List Activity) (s : DashboardState) :
    ((fetchActivities limit? offset? (Except.ok data) s).1).activities.data =
      if offset?.getD 0 = 0 then data else s.activities.data ++ data := by
  by_cases h : offset?.getD 0 = 0 <;> simp [fetchActivities, h]

/-- C9: a failed activities fetch leaves the accumulated list and the whole
pagination state untouched; only the loading flag (to false) and the error
message change. -/
theorem C9_failed_fetch_frame (limit? offset? : Option Int)
    (e : JsError) (s : DashboardState) :
    (fetchActivities limit? offset? (Except.error e) s).1 =
      { s with
          activities :=
            { data := s.activities.data, loading := false,
              error := some (fetchErrorMessage e) } } := by
  simp [fetchActivities]

/-- C4: a failed create or delete mutation leaves the accumulated list
unchanged, sets an error message in the activities state, issues only the
single mutation request (no retry), and resolves to null (`none`)
respectively false. -/
theorem C4_failed_mutation (d : ActivityCreateData) (id : Int)
    (e : JsError) (s : DashboardState) :
    createActivity d (Except.error e) s =
      ({ s with activities := { s.activities with error := some (createErrorMessage e) } },
        [Request.createReq d], none) ∧
    deleteActivity id (Except.error e) s =
      ({ s with activities := { s.activities with error := some (deleteErrorMessage e) } },
        [Request.deleteReq id], false) := by
  constructor <;> rfl

/-- C5: a successful create prepends the new record to the accumulated list
and triggers a stats refetch; a successful delete removes exactly the
entries whose id equals the deleted id, keeps the rest in order, and
triggers a stats refetch. -/
theorem C5_successful_mutation (d : ActivityCreateData) (a : Activity)
    (id : Int) (s : DashboardState) :
    createActivity d (Except.ok a) s =
      ({ s with activities := { s.activities with data := a :: s.activities.data } },
        [Request.createReq d, Request.fetchStatsReq], some a) ∧
    deleteActivity id (Except.ok ()) s =
      ({ s with
          activities :=
            { s.activities with data := s.activities.data.filter (fun x => x.id != id) } },
        [Request.deleteReq id, Request.fetchStatsReq], true) := by
  constructor <;> rfl

/-- C10: neither createActivity nor deleteActivity ever touches the
pagination state, whatever their outcome — even though a successful create
grows the accumulated list by one, leaving the offset out of step with the
records actually held. -/
theorem C10_mutations_preserve_pagination (d : ActivityCreateData) (id : Int)
    (a : Activity) (cr : Except JsError Activity) (dr : Except JsError Unit)
    (s : DashboardState) :
    (createActivity d cr s).1.pagination = s.pagination ∧
    (deleteActivity id dr s).1.pagination = s.pagination ∧
    (createActivity d (Except.ok a) s).1.activities.data.length =
      s.activities.data.length + 1 := by
  refine ⟨?_, ?_, ?_⟩
  · cases cr <;> rfl
  · cases dr <;> rfl
  · simp [createActivity]

/-- C7: the general listing API `getActivities` defaults to limit 50 (and
offset 0) when the arguments are omitted, while the dashboard hook's
`fetchActivities` defaults to `DEFAULT_LIMIT = 10` and offset 0 for its
page fetches. -/
theorem C7_default_limits (r : Except JsError (List Activity))
    (s : DashboardState) :
    getActivitiesRequest none none =
      { method := "GET", url := "/api/dashboard/activities",
        query := [("limit", "50"), ("offset", "0")], bearerAuth := true } ∧
    DEFAULT_LIMIT = 10 ∧
    (fetchActivities none none r s).2 = [Request.fetchActivitiesReq 10 0] := by
  refine ⟨by rfl, by rfl, ?_⟩
  cases r <;> rfl

/-- C8: refreshData resets the pagination offset to 0 and issues both the
first-page fetch (current limit, offset 0) and the stats fetch in the same
`Promise.all` batch; a successful first page replaces the list and sets the
pagination from the heuristic, a failed one leaves pagination at the
reset-offset value, and a successful stats result is stored. -/
theorem C8_refreshData (data : List Activity) (e : JsError)
    (sr : Except JsError ActivityStats) (stats : ActivityStats)
    (s : DashboardState) :
    (refreshData (Except.ok data) sr s).2 =
      [Request.fetchActivitiesReq s.pagination.limit 0, Request.fetchStatsReq] ∧
    (refreshData (Except.error e) sr s).2 =
      [Request.fetchActivitiesReq s.pagination.limit 0, Request.fetchStatsReq] ∧
    (refreshData (Except.ok data) sr s).1.activities.data = data ∧
    (refreshData (Except.ok data) sr s).1.pagination =
      { limit := s.pagination.limit, offset := 0,
        hasMore := decide ((data.length : Int) = s.pagination.limit) } ∧
    (refreshData (Except.error e) sr s).1.pagination =
      { s.pagination with offset := 0 } ∧
    (refreshData (Except.ok data) (Except.ok stats) s).1.stats.data = some stats := by
  refine ⟨?_, ?_, ?_, ?_, ?_, rfl⟩ <;> cases sr <;> rfl

/-- C6: whenever an authenticated dashboard API response has status 401, the
handler removes the stored token, redirects to /login, and rejects with the
session-expired error — in particular no 401 response ever resolves to
data. -/
theorem C6_unauthorized (α : Type) (r : Response α) (h : r.status = 401) :
    handleAuthenticatedResponse r =
      ([Effect.removeToken, Effect.redirect "/login"],
        Except.error "Session expired. Please log in again.") := by
  simp [handleAuthenticatedResponse, h]

/-- Witness for C6 at a concrete 401 response. -/
theorem C6_unauthorized_witness :
    handleAuthenticatedResponse
        ({ status := 401, errorBody := ErrorBody.parseFailed, value := () } : Response Unit) =
      ([Effect.removeToken, Effect.redirect "/login"],
        Except.error "Session expired. Please log in again.") :=
  C6_unauthorized Unit _ rfl

/-- C2 counterexample: the claim says that when `hasMore` is true and no
fetch is in flight, `loadMore` appends the returned page to the accumulated
list.  In the state with limit 0 and offset 0 (reachable via the exposed
`fetchActivities(0, 0)` followed by a successful create), the requested
offset is 0 + 0 = 0, so the shared fetch routine takes its replace branch
and the existing record is dropped instead of being appended to. -/
theorem C2_counterexample :
    zeroLimitState.pagination.hasMore = true ∧
    zeroLimitState.activities.loading = false ∧
    (loadMore (Except.ok [sampleActivity 2]) zeroLimitState).1.activities.data ≠
      zeroLimitState.activities.data ++ [sampleActivity 2] := by
  refine ⟨rfl, rfl, ?_⟩
  decide

/-- C2 (amended): loadMore is a no-op — no request, no state change — when
hasMore is false or a fetch is in flight; otherwise it requests offset
equal to the current offset plus the current limit and applies the returned
page through the shared fetch routine: the page is appended to the
accumulated list when that requested offset is nonzero, and replaces the
list in the degenerate case offset + limit = 0; hasMore is recomputed by
the page-length-equals-limit heuristic. -/
theorem C2_loadMore_spec (result : Except JsError (List Activity))
    (s : DashboardState) :
    ((!s.pagination.hasMore || s.activities.loading) = true →
        loadMore result s = (s, [])) ∧
    (s.pagination.hasMore = true → s.activities.loading = false →
        ∀ data, result = Except.ok data →
          loadMore result s =
            ({ activities :=
                 { data :=
                     if s.pagination.offset + s.pagination.limit = 0 then data
                     else s.activities.data ++ data,
                   loading := false,
                   error := none },
               stats := s.stats,
               pagination :=
                 { limit := s.pagination.limit,
                   offset := s.pagination.offset + s.pagination.limit,
                   hasMore := decide ((data.length : Int) = s.pagination.limit) } },
             [Request.fetchActivitiesReq s.pagination.limit
               (s.pagination.offset + s.pagination.limit)])) := by
  constructor
  · intro h
    simp [loadMore, h]
  · intro hMore hLoad data hres
    subst hres
    by_cases hz : s.pagination.offset + s.pagination.limit = 0 <;>
      simp [loadMore, fetchActivities, hMore, hLoad, hz]

/-- Witness for C2 at concrete states: a no-op state with hasMore false, and
a state with one loaded record, limit 1, offset 0, where loadMore requests
offset 1 and appends the page. -/
theorem C2_loadMore_spec_witness :
    loadMore (Except.ok [sampleActivity 2]) noMoreState = (noMoreState, []) ∧
    loadMore (Except.ok [sampleActivity 2]) moreState =
      ({ activities :=
           { data := [sampleActivity 1, sampleActivity 2],
             loading := false,
             error := none },
         stats := sampleStats,
         pagination := { limit := 1, offset := 1, hasMore := true } },
       [Request.fetchActivitiesReq 1 1]) := by
  constructor
  · exact (C2_loadMore_spec (Except.ok [sampleActivity 2]) noMoreState).1 (by decide)
  · have h := (C2_loadMore_spec (Except.ok [sampleActivity 2]) moreState).2
      (by decide) (by decide) [sampleActivity 2] rfl
    rw [h]
    decide

end Dashboard
